import Mathlib

/-!
Verification of the Snowflake MCP client (`MCP Client/mcp_client.py`).

The Python functions are shallowly embedded: decoded JSON documents become the
inductive type `JVal`; Python's dynamic operations (`in`, subscripting, `.get`,
iteration) become total Lean functions in `Except String` where the Python
operation can raise; the standard-library `json.loads` is passed in as an
explicit parameter `loads : String → Option JVal` (`none` models a
`json.JSONDecodeError`).  Concrete theorems instantiate `loads` with a small
table (`loadsTest`) that agrees with Python's `json.loads` on every string it
is applied to in this file.
-/

/-- A decoded JSON value (the payloads handled by the client).  Object fields
are kept as an ordered association list, matching insertion order of Python
dicts; the JSON documents in this development never carry duplicate keys. -/
inductive JVal where
  | null
  | bool (b : Bool)
  | int (n : Int)
  | str (s : String)
  | arr (xs : List JVal)
  | obj (kvs : List (String × JVal))
deriving Repr, BEq

/-- First-occurrence lookup in an object's field list (Python dict indexing). -/
def jLookup (kvs : List (String × JVal)) (k : String) : Option JVal :=
  match kvs with
  | [] => none
  | p :: rest => if p.fst = k then some p.snd else jLookup rest k

/-- Field access on a value known to be an object; `none` otherwise.  Used
only to state theorems about returned structures. -/
def jGet (v : JVal) (k : String) : Option JVal :=
  match v with
  | JVal.obj kvs => jLookup kvs k
  | _ => none

/-- `charListStarts pat s`: the character list `pat` is an initial segment of
`s` (Python `str.startswith` on the underlying characters). -/
def charListStarts : List Char → List Char → Bool
  | [], _ => true
  | _ :: _, [] => false
  | c :: cs, d :: ds => c == d && charListStarts cs ds

/-- `charListHas pat s`: `pat` occurs contiguously inside `s`. -/
def charListHas (pat : List Char) : List Char → Bool
  | [] => pat.isEmpty
  | d :: ds => charListStarts pat (d :: ds) || charListHas pat ds

/-- Python `pat in s` for strings: substring containment. -/
def strContains (s pat : String) : Bool :=
  charListHas pat.toList s.toList

/-- Python `s.startswith(pat)`. -/
def strStarts (s pat : String) : Bool :=
  charListStarts pat.toList s.toList

/-- Python `s[n:]` for a character count `n`. -/
def strDropChars (s : String) (n : Nat) : String :=
  String.mk (s.toList.drop n)

/-- Python `s.strip()`: remove leading and trailing whitespace. -/
def pyStrip (s : String) : String :=
  String.mk
    (((s.toList.dropWhile Char.isWhitespace).reverse.dropWhile
        Char.isWhitespace).reverse)

/-- Python `s.lower()` (the SQL text handled here is ASCII). -/
def pyLower (s : String) : String :=
  String.mk (s.toList.map Char.toLower)

/-- Splitting a response body into lines at newline characters, the view of
the body that `response.iter_lines` hands to the event-stream loop (carriage
returns survive and are removed by the subsequent `strip`). -/
def splitNl : List Char → List Char → List (List Char)
  | cur, [] => [cur.reverse]
  | cur, c :: cs =>
    if c == '\n' then cur.reverse :: splitNl [] cs else splitNl (c :: cur) cs

/-- The lines of a response body. -/
def iterLines (s : String) : List String :=
  (splitNl [] s.toList).map String.mk

/-- Python `v == s` against a string literal: equal exactly when `v` is the
same string (the values compared in this code base are decoded JSON values
against string constants). -/
def jEqStr (v : JVal) (s : String) : Bool :=
  match v with
  | JVal.str t => decide (t = s)
  | _ => false

/-- Python truthiness of a decoded JSON value. -/
def pyTruthy : JVal → Bool
  | JVal.null => false
  | JVal.bool b => b
  | JVal.int n => n != 0
  | JVal.str s => !s.toList.isEmpty
  | JVal.arr xs => !xs.isEmpty
  | JVal.obj kvs => !kvs.isEmpty

/-- Python `k in v`: key test on dicts, membership on lists, substring test on
strings; a `TypeError` on other values. -/
def pyContains (k : String) (v : JVal) : Except String Bool :=
  match v with
  | JVal.obj kvs => Except.ok (jLookup kvs k).isSome
  | JVal.arr xs => Except.ok (xs.any (fun x => jEqStr x k))
  | JVal.str s => Except.ok (strContains s k)
  | _ => Except.error "TypeError: argument is not a container"

/-- Python `v[k]` with a string key: defined on dicts (raising `KeyError`
when missing), a `TypeError` on every other value. -/
def pySubscript (v : JVal) (k : String) : Except String JVal :=
  match v with
  | JVal.obj kvs =>
    match jLookup kvs k with
    | some x => Except.ok x
    | none => Except.error ("KeyError: " ++ k)
  | _ => Except.error "TypeError: value is not subscriptable by a string"

/-- Python `v.get(k)` (default `None`): defined on dicts, an `AttributeError`
on every other value. -/
def pyDictGet (v : JVal) (k : String) : Except String JVal :=
  match v with
  | JVal.obj kvs => Except.ok ((jLookup kvs k).getD JVal.null)
  | _ => Except.error "AttributeError: object has no attribute get"

/-- Python `v.get(k, d)`. -/
def pyDictGetD (v : JVal) (k : String) (d : JVal) : Except String JVal :=
  match v with
  | JVal.obj kvs => Except.ok ((jLookup kvs k).getD d)
  | _ => Except.error "AttributeError: object has no attribute get"

/-- Python `for x in v`: lists yield elements, strings their characters,
dicts their keys; other values raise a `TypeError`. -/
def pyIter : JVal → Except String (List JVal)
  | JVal.arr xs => Except.ok xs
  | JVal.str s => Except.ok (s.toList.map (fun c => JVal.str (String.singleton c)))
  | JVal.obj kvs => Except.ok (kvs.map (fun p => JVal.str p.fst))
  | _ => Except.error "TypeError: object is not iterable"

/-- Python `d[k] = v` on a dict: overwrite in place when the key exists,
append otherwise. -/
def pyDictSet (kvs : List (String × JVal)) (k : String) (v : JVal) :
    List (String × JVal) :=
  if kvs.any (fun p => p.fst = k) then
    kvs.map (fun p => if p.fst = k then (k, v) else p)
  else kvs ++ [(k, v)]

/-- Python dict keys in this code base are the column-name strings coming out
of result-set metadata; a non-string name is modelled as an error (Python
would admit other hashable keys, a corner no payload here exercises). -/
def keyOf : JVal → Except String String
  | JVal.str s => Except.ok s
  | _ => Except.error "TypeError: non-string dict key not modelled"

mutual
/-- Models Python `str()` on a decoded JSON value, used by the interpreters
only as opaque fallback text (no claim depends on its exact rendering; nested
string quoting is elided). -/
def pyStr : JVal → String
  | JVal.null => "None"
  | JVal.bool true => "True"
  | JVal.bool false => "False"
  | JVal.int n => toString n
  | JVal.str s => s
  | JVal.arr xs => "[" ++ String.intercalate ", " (pyStrList xs) ++ "]"
  | JVal.obj kvs => "\x7b" ++ String.intercalate ", " (pyStrKVs kvs) ++ "\x7d"

def pyStrList : List JVal → List String
  | [] => []
  | x :: xs => pyStr x :: pyStrList xs

def pyStrKVs : List (String × JVal) → List String
  | [] => []
  | p :: ps => (p.fst ++ ": " ++ pyStr p.snd) :: pyStrKVs ps
end

/-- The part of an HTTP response that `_make_rpc_call` inspects after the
request returns: status code, `Content-Type` header (empty when absent) and
the body text. -/
structure HttpResponse where
  status : Nat
  contentType : String
  body : String

/-- The distinct failure modes `_make_rpc_call` surfaces.  In the source all
of `httpError`, `mcpError` and `protocolError` are raised as `Exception`s
with distinct message formats (`"HTTP {status}: {text}"`, `"MCP Error: {e}"`,
the literal protocol messages); `requestFailed` is the
`requests.RequestException` wrapper (a JSON decode failure of a non-stream
body raises through it); `uncaught` stands for a `TypeError` escaping the
function when the parsed payload is not a JSON object, which no handler in
the function converts. -/
inductive RpcError where
  | httpError (status : Nat) (body : String)
  | mcpError (err : JVal)
  | protocolError (msg : String)
  | requestFailed (msg : String)
  | uncaught (msg : String)
deriving Repr, BEq

/-- One iteration of the SSE loop of `_make_rpc_call` (lines 218-233): skip
empty lines, strip, and for a `data: ` line parse the suffix, keeping the
parse result when it succeeds and the previous candidate otherwise. -/
def sseStep (loads : String → Option JVal) (acc : Option JVal) (line : String) :
    Option JVal :=
  if line ≠ "" then
    let l := pyStrip line
    if strStarts l "data: " then
      match loads (strDropChars l ("data: ".toList.length)) with
      | some v => some v
      | none => acc
    else acc
  else acc

/-- The SSE loop of `_make_rpc_call`: the last successfully parsed `data: `
payload, if any. -/
def sseExtract (loads : String → Option JVal) (lines : List String) :
    Option JVal :=
  lines.foldl (sseStep loads) none

/-- The unwrap step of `_make_rpc_call` (lines 251-262): a `result` key is
success, an `error` key is a remote error carrying its value, anything else
is a protocol error.  Python's `'result' in result` on a non-dict payload
either raises a `TypeError` outright (numbers, `None`, booleans) or performs
list membership / substring search and then fails on the subscript; both are
modelled as `uncaught`. -/
def unwrapResponse : JVal → Except RpcError JVal
  | JVal.obj kvs =>
    match jLookup kvs "result" with
    | some v => Except.ok v
    | none =>
      match jLookup kvs "error" with
      | some e => Except.error (RpcError.mcpError e)
      | none => Except.error (RpcError.protocolError "Unexpected response format")
  | JVal.arr xs =>
    if xs.any (fun x => jEqStr x "result") then
      Except.error (RpcError.uncaught "TypeError: list indices must be integers")
    else if xs.any (fun x => jEqStr x "error") then
      Except.error (RpcError.uncaught "TypeError: list indices must be integers")
    else Except.error (RpcError.protocolError "Unexpected response format")
  | JVal.str s =>
    if strContains s "result" then
      Except.error (RpcError.uncaught "TypeError: string indices must be integers")
    else if strContains s "error" then
      Except.error (RpcError.uncaught "TypeError: string indices must be integers")
    else Except.error (RpcError.protocolError "Unexpected response format")
  | _ => Except.error (RpcError.uncaught "TypeError: argument is not a container")

/-- `_make_rpc_call` from the point where the HTTP response is available
(lines 203-265): only status 200 reads the payload; an event-stream content
type selects the SSE loop (failing with a protocol error when it yields
nothing), any other content type parses the whole body as one JSON document;
the parsed payload is then unwrapped; every other status raises the transport
error carrying the status code and body text. -/
def make_rpc_call (loads : String → Option JVal) (resp : HttpResponse) :
    Except RpcError JVal :=
  if resp.status = 200 then
    if strContains resp.contentType "text/event-stream" then
      match sseExtract loads (iterLines resp.body) with
      | none =>
        Except.error (RpcError.protocolError "No valid JSON data found in SSE stream")
      | some result => unwrapResponse result
    else
      match loads resp.body with
      | some result => unwrapResponse result
      | none => Except.error (RpcError.requestFailed "Request failed: invalid JSON body")
  else Except.error (RpcError.httpError resp.status resp.body)

/-- `determine_query_type` (lines 334-344). -/
def determine_query_type (sql : String) : String :=
  let sql_lower := pyLower sql
  if strContains sql_lower "count(" && strContains sql_lower "group by" then
    "aggregation"
  else if strContains sql_lower "select distinct" then "distinct"
  else if strContains sql_lower "count(" then "count"
  else "select"

/-- The scan of `parse_analyst_result` over the content items (lines
290-301): a textual item whose text parses as JSON with a `statement` field
supplies the statement and stops the loop; a textual item whose text fails to
parse overwrites the candidate with its raw text and the loop continues;
other items are skipped. -/
def analystLoop (loads : String → Option JVal) :
    List JVal → Option JVal → Except String (Option JVal)
  | [], sql_statement => Except.ok sql_statement
  | item :: rest, sql_statement => do
    let ty ← pyDictGet item "type"
    if jEqStr ty "text" then do
      let hasText ← pyContains "text" item
      if hasText then do
        let textv ← pySubscript item "text"
        match textv with
        | JVal.str text_content =>
          match loads text_content with
          | some parsed_json => do
            let hasStmt ← pyContains "statement" parsed_json
            if hasStmt then do
              let stmt ← pySubscript parsed_json "statement"
              Except.ok (some stmt)
            else analystLoop loads rest sql_statement
          | none => analystLoop loads rest (some (JVal.str text_content))
        | _ => Except.error "TypeError: the JSON object must be str"
      else analystLoop loads rest sql_statement
    else analystLoop loads rest sql_statement

/-- The body of `parse_analyst_result`'s `try` block (lines 287-313): run the
scan when the result carries a list of content items, apply Python truthiness
to the outcome and strip the statement.  `Except.error` is anything the outer
`except Exception` handler would catch. -/
def analystBody (loads : String → Option JVal) (result : JVal) :
    Except String (Option String) := do
  let sql_statement ←
    (do
      let hasContent ← pyContains "content" result
      if hasContent then do
        let content ← pySubscript result "content"
        match content with
        | JVal.arr items => analystLoop loads items none
        | _ => pure none
      else pure none)
  let sval := sql_statement.getD JVal.null
  if pyTruthy sval then
    match sval with
    | JVal.str s => Except.ok (some (pyStrip s))
    | _ => Except.error "AttributeError: object has no attribute strip"
  else Except.ok none

/-- `parse_analyst_result` (lines 284-332). -/
def parse_analyst_result (loads : String → Option JVal) (result : JVal)
    (query : String) : JVal :=
  match analystBody loads result with
  | Except.ok (some s) =>
    JVal.obj
      [("type", JVal.str "analysis"),
       ("sql_query", JVal.str s),
       ("explanation",
        JVal.str ("SQL analysis generated by Snowflake Cortex Analyst for: " ++ query)),
       ("executed", JVal.bool false),
       ("execution_note",
        JVal.str "SQL generated by Cortex Analyst. Execute in Snowflake to get results."),
       ("query_type", JVal.str (determine_query_type s))]
  | Except.ok none =>
    JVal.obj
      [("type", JVal.str "analysis"),
       ("sql_query", JVal.null),
       ("explanation", JVal.str ("Generated analysis for: " ++ query)),
       ("executed", JVal.bool false),
       ("error", JVal.str "No SQL statement found in response")]
  | Except.error e =>
    JVal.obj
      [("type", JVal.str "analysis"),
       ("sql_query", JVal.str (pyStr result)),
       ("explanation", JVal.str ("Analysis for: " ++ query)),
       ("executed", JVal.bool false),
       ("error", JVal.str e)]

/-- The comprehension `[col['name'] for col in rowType]` of line 368. -/
def colNames : List JVal → Except String (List JVal)
  | [] => Except.ok []
  | col :: rest => do
    let n ← pySubscript col "name"
    let ns ← colNames rest
    Except.ok (n :: ns)

/-- The dict comprehension of lines 378-380: `row_dict[col_name] = row[i]`
for each column position. -/
def buildRowDict (names cells : List JVal) :
    Except String (List (String × JVal)) :=
  (names.zip cells).foldlM
    (fun d nc => do
      let k ← keyOf nc.fst
      pure (pyDictSet d k nc.snd)) []

/-- The row loop of lines 376-381: list rows whose width equals the column
count become dicts keyed by column name; all other rows are skipped. -/
def matchedRowsLoop (names rows acc : List JVal) : Except String (List JVal) :=
  rows.foldlM
    (fun a row =>
      match row with
      | JVal.arr cells =>
        if cells.length = names.length then do
          let kvs ← buildRowDict names cells
          pure (a ++ [JVal.obj kvs])
        else pure a
      | _ => pure a) acc

/-- The fallback row loop of lines 384-387: list rows become dicts keyed
`column_<index>`; non-list rows are skipped. -/
def genericRowsLoop (rows acc : List JVal) : List JVal :=
  rows.foldl
    (fun a row =>
      match row with
      | JVal.arr cells =>
        a ++
          [JVal.obj ((cells.enum).map
            (fun p => ("column_" ++ toString p.fst, p.snd)))]
      | _ => a) acc

/-- The per-result-set handler of `parse_sql_result` (lines 362-390), acting
on the decoded Snowflake response of one content item.  The state is the pair
(`execution_results`, `result_metadata`), both of which survive across
content items in the source. -/
def sqlHandleResponse (st : List JVal × Option JVal) (snowflake_response : JVal) :
    Except String (List JVal × Option JVal) := do
  let hasRS ← pyContains "result_set" snowflake_response
  if hasRS then do
    let result_set ← pySubscript snowflake_response "result_set"
    let result_metadata ←
      (do
        let hasMD ← pyContains "resultSetMetaData" result_set
        if hasMD then do
          let md ← pySubscript result_set "resultSetMetaData"
          let hasRT ← pyContains "rowType" md
          if hasRT then do
            let rowType ← pySubscript md "rowType"
            let cols ← colNames (← pyIter rowType)
            let nr ← pyDictGetD md "numRows" (JVal.int 0)
            pure (some (JVal.obj [("columns", JVal.arr cols), ("num_rows", nr)]))
          else pure st.snd
        else pure st.snd)
    let hasData ← pyContains "data" result_set
    if hasData then do
      let dta ← pySubscript result_set "data"
      match dta with
      | JVal.arr rows => do
        let useCols ←
          (match result_metadata with
           | none => pure none
           | some md =>
             if pyTruthy md then do
               let colsv ← pySubscript md "columns"
               if pyTruthy colsv then
                 match colsv with
                 | JVal.arr names => pure (some names)
                 | _ =>
                   -- `result_metadata` is always built with a list under
                   -- "columns", so this branch is unreachable.
                   Except.error "TypeError: columns is not a list"
               else pure none
             else pure none)
        match useCols with
        | some names => do
          let rs ← matchedRowsLoop names rows st.fst
          pure (rs, result_metadata)
        | none =>
          pure (genericRowsLoop rows st.fst, result_metadata)
      | _ => pure (st.fst, result_metadata)
    else pure (st.fst, result_metadata)
  else pure (st.fst ++ [snowflake_response], st.snd)

/-- One content item of `parse_sql_result` (lines 354-394): textual items
have their text decoded as JSON — a decode failure is downgraded inline to a
`{'result': text}` row — and handled by `sqlHandleResponse`. -/
def sqlProcessItem (loads : String → Option JVal) (st : List JVal × Option JVal)
    (item : JVal) : Except String (List JVal × Option JVal) := do
  let ty ← pyDictGet item "type"
  if jEqStr ty "text" then do
    let hasText ← pyContains "text" item
    if hasText then do
      let textv ← pySubscript item "text"
      match textv with
      | JVal.str text_content =>
        match loads text_content with
        | some snowflake_response => sqlHandleResponse st snowflake_response
        | none =>
          pure (st.fst ++ [JVal.obj [("result", JVal.str text_content)]], st.snd)
      | _ => Except.error "TypeError: the JSON object must be str"
    else pure st
  else pure st

/-- The body of `parse_sql_result`'s `try` block (lines 349-394), producing
the final (`execution_results`, `result_metadata`) pair.  `Except.error` is
anything the outer `except Exception` handler would catch. -/
def sqlParseBody (loads : String → Option JVal) (result : JVal) :
    Except String (List JVal × Option JVal) := do
  let hasContent ← pyContains "content" result
  if hasContent then do
    let content ← pySubscript result "content"
    match content with
    | JVal.arr items => items.foldlM (sqlProcessItem loads) ([], none)
    | _ => pure ([], none)
  else pure ([], none)

/-- `parse_sql_result` (lines 346-414). -/
def parse_sql_result (loads : String → Option JVal) (result : JVal)
    (sql_query : String) : JVal :=
  match sqlParseBody loads result with
  | Except.ok st =>
    JVal.obj
      [("type", JVal.str "sql_execution"),
       ("sql_query", JVal.str sql_query),
       ("executed", JVal.bool true),
       ("execution_results", JVal.arr st.fst),
       ("result_metadata", st.snd.getD JVal.null),
       ("row_count",
        if st.fst.isEmpty then JVal.int 0 else JVal.int st.fst.length),
       ("execution_note",
        JVal.str "SQL executed successfully via Snowflake MCP server.")]
  | Except.error e =>
    JVal.obj
      [("type", JVal.str "sql_execution"),
       ("sql_query", JVal.str sql_query),
       ("executed", JVal.bool false),
       ("error", JVal.str e),
       ("execution_results", JVal.arr [])]

/-- The body of `parse_agent_result`'s `try` block (lines 419-427):
concatenate the text of every textual content item, newline-separated. -/
def agentBody (result : JVal) : Except String String := do
  let hasContent ← pyContains "content" result
  if hasContent then do
    let content ← pySubscript result "content"
    match content with
    | JVal.arr items =>
      items.foldlM
        (fun acc item => do
          let ty ← pyDictGet item "type"
          if jEqStr ty "text" then do
            let hasText ← pyContains "text" item
            if hasText then do
              let textv ← pySubscript item "text"
              match textv with
              | JVal.str t => pure (acc ++ t ++ "\n")
              | _ => Except.error "TypeError: can only concatenate str to str"
            else pure acc
          else pure acc) ""
    | _ => pure ""
  else pure ""

/-- `parse_agent_result` (lines 416-443). -/
def parse_agent_result (result : JVal) (message : String) : JVal :=
  match agentBody result with
  | Except.ok r =>
    let r := if r = "" then pyStr result else r
    JVal.obj
      [("type", JVal.str "agent_response"),
       ("message", JVal.str message),
       ("response", JVal.str (pyStrip r)),
       ("execution_note", JVal.str "Response generated by SEC Filing Agent.")]
  | Except.error e =>
    JVal.obj
      [("type", JVal.str "agent_response"),
       ("message", JVal.str message),
       ("response", JVal.str ("Error processing agent response: " ++ e)),
       ("error", JVal.str e)]

/-- A textual content item (`{'type': 'text', 'text': t}`). -/
def mkTextItem (t : String) : JVal :=
  JVal.obj [("type", JVal.str "text"), ("text", JVal.str t)]

/-- A tool-call result carrying the given content items. -/
def mkItemsResult (items : List JVal) : JVal :=
  JVal.obj [("content", JVal.arr items)]

/-- A tool-call result with a single textual content item. -/
def mkTextResult (t : String) : JVal :=
  mkItemsResult [mkTextItem t]

/-- A decoded Snowflake SQL response with column metadata and rows. -/
def mkSnowflakeWithMeta (names : List String) (nr : JVal) (rows : List JVal) :
    JVal :=
  JVal.obj
    [("result_set", JVal.obj
      [("resultSetMetaData", JVal.obj
        [("rowType",
          JVal.arr (names.map (fun n => JVal.obj [("name", JVal.str n)]))),
         ("numRows", nr)]),
       ("data", JVal.arr rows)])]

/-- A decoded Snowflake SQL response with rows but no metadata. -/
def mkSnowflakeNoMeta (rows : List JVal) : JVal :=
  JVal.obj [("result_set", JVal.obj [("data", JVal.arr rows)])]

/-- Snowflake SQL response text: columns `name`, `val`, rows
`[["a", 1], ["b", 2]]`. -/
def sqlOkJson : String :=
  "\x7b\"result_set\": \x7b\"resultSetMetaData\": \x7b\"rowType\": [\x7b\"name\": \"name\"\x7d, \x7b\"name\": \"val\"\x7d], \"numRows\": 2\x7d, \"data\": [[\"a\", 1], [\"b\", 2]]\x7d\x7d"

/-- Snowflake SQL response text: columns `name`, `val`, rows
`[["a", 1], ["b"]]` — the second row is narrower than the column list. -/
def sqlShortRowJson : String :=
  "\x7b\"result_set\": \x7b\"resultSetMetaData\": \x7b\"rowType\": [\x7b\"name\": \"name\"\x7d, \x7b\"name\": \"val\"\x7d], \"numRows\": 2\x7d, \"data\": [[\"a\", 1], [\"b\"]]\x7d\x7d"

/-- Snowflake SQL response text with row data but no `resultSetMetaData`. -/
def sqlNoMetaJson : String :=
  "\x7b\"result_set\": \x7b\"data\": [[\"a\", 1]]\x7d\x7d"

/-- A JSON-RPC response document whose `result` is the number 42. -/
def rpcResultJson : String :=
  "\x7b\"result\": 42\x7d"

/-- An analyst response document carrying a generated statement. -/
def stmtJson : String :=
  "\x7b\"statement\": \"SELECT 1\"\x7d"

/-- A concrete instance of the `loads` parameter: it agrees with Python's
`json.loads` on every string it is applied to in this file — each listed
document decodes to exactly the given value, and every other string used here
(`"this is not json"`, `"foo"`, `"bar"`, `"nope"`, …) is not valid JSON, which
`json.loads` answers with a `JSONDecodeError` (modelled as `none`). -/
def loadsTest : String → Option JVal := fun s =>
  if s = sqlOkJson then
    some (mkSnowflakeWithMeta ["name", "val"] (JVal.int 2)
      [JVal.arr [JVal.str "a", JVal.int 1], JVal.arr [JVal.str "b", JVal.int 2]])
  else if s = sqlShortRowJson then
    some (mkSnowflakeWithMeta ["name", "val"] (JVal.int 2)
      [JVal.arr [JVal.str "a", JVal.int 1], JVal.arr [JVal.str "b"]])
  else if s = sqlNoMetaJson then
    some (mkSnowflakeNoMeta [JVal.arr [JVal.str "a", JVal.int 1]])
  else if s = rpcResultJson then
    some (JVal.obj [("result", JVal.int 42)])
  else if s = stmtJson then
    some (JVal.obj [("statement", JVal.str "SELECT 1")])
  else none

/-- Stated from the claim's words (amended): list rows whose width equals the
column count become column-name dicts by position; rows of any other width
are skipped. -/
def convertedRowsSpec (names : List String) (rows : List JVal) : List JVal :=
  rows.filterMap
    (fun row =>
      match row with
      | JVal.arr cells =>
        if cells.length = names.length then some (JVal.obj (names.zip cells))
        else none
      | _ => none)

/-- Stated from the claim's words (amended): without column metadata every
list row becomes a dict with synthetic keys `column_<index>`. -/
def syntheticRowsSpec (rows : List JVal) : List JVal :=
  rows.filterMap
    (fun row =>
      match row with
      | JVal.arr cells =>
        some (JVal.obj ((cells.enum).map
          (fun p => ("column_" ++ toString p.fst, p.snd))))
      | _ => none)

/-- C9: `determine_query_type` is total: every input string is classified as
exactly one of "aggregation", "distinct", "count", "select", decided by
case-insensitive substring tests in priority order — a count-token together
with a grouping token gives "aggregation", then "select distinct" gives
"distinct", then a count-token gives "count", and every other string
(non-SELECT text included) gives "select"; no input is left unclassified. -/
theorem determine_query_type_total_priority (sql : String) :
    (determine_query_type sql = "aggregation" ∨
     determine_query_type sql = "distinct" ∨
     determine_query_type sql = "count" ∨
     determine_query_type sql = "select") ∧
    (determine_query_type sql = "aggregation" ↔
      strContains (pyLower sql) "count(" = true ∧
      strContains (pyLower sql) "group by" = true) ∧
    (determine_query_type sql = "distinct" ↔
      ¬(strContains (pyLower sql) "count(" = true ∧
        strContains (pyLower sql) "group by" = true) ∧
      strContains (pyLower sql) "select distinct" = true) ∧
    (determine_query_type sql = "count" ↔
      ¬(strContains (pyLower sql) "count(" = true ∧
        strContains (pyLower sql) "group by" = true) ∧
      strContains (pyLower sql) "select distinct" = false ∧
      strContains (pyLower sql) "count(" = true) ∧
    (determine_query_type sql = "select" ↔
      ¬(strContains (pyLower sql) "count(" = true ∧
        strContains (pyLower sql) "group by" = true) ∧
      strContains (pyLower sql) "select distinct" = false ∧
      strContains (pyLower sql) "count(" = false) := by
  cases h1 : strContains (pyLower sql) "count(" <;>
    cases h2 : strContains (pyLower sql) "group by" <;>
      cases h3 : strContains (pyLower sql) "select distinct" <;>
        simp [determine_query_type, h1, h2, h3]

/-- C5: the unwrap step of `_make_rpc_call`: a `result` key returns its value
as success; otherwise an `error` key fails with the remote-error condition
carrying that value unchanged; otherwise the call fails with the protocol
error for an unrecognized response shape. -/
theorem unwrapResponse_spec (kvs : List (String × JVal)) :
    (∀ v, jLookup kvs "result" = some v →
      unwrapResponse (JVal.obj kvs) = Except.ok v) ∧
    (∀ e, jLookup kvs "result" = none → jLookup kvs "error" = some e →
      unwrapResponse (JVal.obj kvs) = Except.error (RpcError.mcpError e)) ∧
    (jLookup kvs "result" = none → jLookup kvs "error" = none →
      unwrapResponse (JVal.obj kvs) =
        Except.error (RpcError.protocolError "Unexpected response format")) := by
  refine ⟨?_, ?_, ?_⟩
  · intro v hv
    simp [unwrapResponse, hv]
  · intro e hr he
    simp [unwrapResponse, hr, he]
  · intro hr he
    simp [unwrapResponse, hr, he]

/-- Witness for C5 at the three concrete shapes. -/
theorem unwrapResponse_spec_witness :
    unwrapResponse (JVal.obj [("result", JVal.int 1)]) = Except.ok (JVal.int 1) ∧
    unwrapResponse (JVal.obj [("error", JVal.str "boom")]) =
      Except.error (RpcError.mcpError (JVal.str "boom")) ∧
    unwrapResponse (JVal.obj [("jsonrpc", JVal.str "2.0")]) =
      Except.error (RpcError.protocolError "Unexpected response format") :=
  ⟨(unwrapResponse_spec [("result", JVal.int 1)]).1 (JVal.int 1) rfl,
   (unwrapResponse_spec [("error", JVal.str "boom")]).2.1 (JVal.str "boom") rfl rfl,
   (unwrapResponse_spec [("jsonrpc", JVal.str "2.0")]).2.2 rfl rfl⟩

/-- C4: every non-2xx status fails with the transport error carrying the
status code and the body text, the body is never parsed as a JSON-RPC
response (the outcome is the same for every `loads`), and the failure — e.g.
a 504 gateway timeout — is distinguishable from a remote `MCP Error` failure
and from success. -/
theorem make_rpc_call_non2xx (loads loads' : String → Option JVal)
    (resp : HttpResponse) (h : ¬(200 ≤ resp.status ∧ resp.status < 300)) :
    make_rpc_call loads resp =
      Except.error (RpcError.httpError resp.status resp.body) ∧
    make_rpc_call loads resp = make_rpc_call loads' resp ∧
    (∀ e, make_rpc_call loads resp ≠ Except.error (RpcError.mcpError e)) ∧
    (∀ v, make_rpc_call loads resp ≠ Except.ok v) := by
  have hne : resp.status ≠ 200 := by
    intro he
    exact h ⟨by omega, by omega⟩
  have heq : make_rpc_call loads resp =
      Except.error (RpcError.httpError resp.status resp.body) := by
    simp [make_rpc_call, hne]
  have heq' : make_rpc_call loads' resp =
      Except.error (RpcError.httpError resp.status resp.body) := by
    simp [make_rpc_call, hne]
  refine ⟨heq, heq.trans heq'.symm, ?_, ?_⟩
  · intro e hc
    rw [heq] at hc
    injection hc with hc'
    exact RpcError.noConfusion hc'
  · intro v hc
    rw [heq] at hc
    exact Except.noConfusion hc

/-- Witness for C4 at a concrete 504 response. -/
theorem make_rpc_call_non2xx_witness :
    make_rpc_call loadsTest ⟨504, "text/html", "upstream request timeout"⟩ =
      Except.error (RpcError.httpError 504 "upstream request timeout") ∧
    (∀ e, make_rpc_call loadsTest ⟨504, "text/html", "upstream request timeout"⟩ ≠
      Except.error (RpcError.mcpError e)) :=
  have h := make_rpc_call_non2xx loadsTest loadsTest
    ⟨504, "text/html", "upstream request timeout"⟩ (by decide)
  ⟨h.1, h.2.2.1⟩

/-- C8 (amended): for every status other than exactly 200 — other 2xx
statuses such as 201 or 204 included — `_make_rpc_call` raises the transport
error (whose message embeds the body text, so the body is read as text) and
never parses or unwraps the body as a JSON-RPC response (the outcome is
independent of `loads`); success processing happens only for status 200. -/
theorem make_rpc_call_success_only_200 (loads loads' : String → Option JVal)
    (resp : HttpResponse) (h : resp.status ≠ 200) :
    make_rpc_call loads resp =
      Except.error (RpcError.httpError resp.status resp.body) ∧
    make_rpc_call loads resp = make_rpc_call loads' resp ∧
    (∀ v, make_rpc_call loads resp ≠ Except.ok v) := by
  have heq : make_rpc_call loads resp =
      Except.error (RpcError.httpError resp.status resp.body) := by
    simp [make_rpc_call, h]
  have heq' : make_rpc_call loads' resp =
      Except.error (RpcError.httpError resp.status resp.body) := by
    simp [make_rpc_call, h]
  refine ⟨heq, heq.trans heq'.symm, ?_⟩
  intro v hc
  rw [heq] at hc
  exact Except.noConfusion hc

/-- Witness for C8 (amended) at statuses 201 and 204. -/
theorem make_rpc_call_success_only_200_witness :
    make_rpc_call loadsTest ⟨201, "application/json", "created"⟩ =
      Except.error (RpcError.httpError 201 "created") ∧
    make_rpc_call loadsTest ⟨204, "application/json", ""⟩ =
      Except.error (RpcError.httpError 204 "") :=
  ⟨(make_rpc_call_success_only_200 loadsTest loadsTest
      ⟨201, "application/json", "created"⟩ (by decide)).1,
   (make_rpc_call_success_only_200 loadsTest loadsTest
      ⟨204, "application/json", ""⟩ (by decide)).1⟩

/-- C8 counterexample: the claim's "never attempts to read … the body" fails —
at status 201 the outcome depends on the response body, because the raised
transport error embeds `response.text`; two responses differing only in body
produce different results. -/
theorem make_rpc_call_reads_body_cex :
    make_rpc_call loadsTest ⟨201, "application/json", "created-A"⟩ ≠
    make_rpc_call loadsTest ⟨201, "application/json", "created-B"⟩ := by
  intro hc
  simp [make_rpc_call] at hc

/-- C10: on every non-exception path of `parse_sql_result` the returned
structure has `execution_results` equal to the computed row list,
`row_count` equal to that list's length, `type` equal to "sql_execution"
and `executed` equal to `True`. -/
theorem parse_sql_result_success_invariant (loads : String → Option JVal)
    (result : JVal) (q : String) (rs : List JVal) (md : Option JVal)
    (h : sqlParseBody loads result = Except.ok (rs, md)) :
    jGet (parse_sql_result loads result q) "execution_results" =
      some (JVal.arr rs) ∧
    jGet (parse_sql_result loads result q) "row_count" =
      some (JVal.int rs.length) ∧
    jGet (parse_sql_result loads result q) "type" =
      some (JVal.str "sql_execution") ∧
    jGet (parse_sql_result loads result q) "executed" =
      some (JVal.bool true) := by
  unfold parse_sql_result
  rw [h]
  refine ⟨?_, ?_, ?_, ?_⟩
  · simp [jGet, jLookup]
  · cases rs <;> simp [jGet, jLookup]
  · simp [jGet, jLookup]
  · simp [jGet, jLookup]

/-- Witness for C10: a content item whose text is not JSON still follows the
non-exception path and satisfies the invariant. -/
theorem parse_sql_result_success_invariant_witness :
    jGet (parse_sql_result loadsTest (mkTextResult "this is not json") "SELECT 1")
        "row_count" = some (JVal.int 1) ∧
    jGet (parse_sql_result loadsTest (mkTextResult "this is not json") "SELECT 1")
        "type" = some (JVal.str "sql_execution") ∧
    jGet (parse_sql_result loadsTest (mkTextResult "this is not json") "SELECT 1")
        "executed" = some (JVal.bool true) :=
  have h := parse_sql_result_success_invariant loadsTest
    (mkTextResult "this is not json") "SELECT 1"
    [JVal.obj [("result", JVal.str "this is not json")]] none (by rfl)
  ⟨h.2.1, h.2.2.1, h.2.2.2⟩

/-- A line whose stripped form begins with the data prefix is not empty. -/
theorem data_line_ne_empty (l : String)
    (h : strStarts (pyStrip l) "data: " = true) : l ≠ "" := by
  intro he
  subst he
  exact absurd h (by decide)

/-- An SSE iteration on a data line whose payload fails to parse keeps the
previous candidate. -/
theorem sseStep_parse_none (loads : String → Option JVal) (acc : Option JVal)
    (l : String) (h1 : strStarts (pyStrip l) "data: " = true)
    (h2 : loads (strDropChars (pyStrip l) ("data: ".toList.length)) = none) :
    sseStep loads acc l = acc := by
  have h2' : loads (strDropChars (pyStrip l) 6) = none := h2
  simp [sseStep, data_line_ne_empty l h1, h1, h2']

/-- An SSE iteration on a data line whose payload parses replaces the
candidate. -/
theorem sseStep_parse_some (loads : String → Option JVal) (acc : Option JVal)
    (l : String) (v : JVal) (h1 : strStarts (pyStrip l) "data: " = true)
    (h2 : loads (strDropChars (pyStrip l) ("data: ".toList.length)) = some v) :
    sseStep loads acc l = some v := by
  have h2' : loads (strDropChars (pyStrip l) 6) = some v := h2
  simp [sseStep, data_line_ne_empty l h1, h1, h2']

/-- When no data line parses, the SSE loop produces no candidate. -/
theorem sseExtract_all_fail (loads : String → Option JVal)
    (lines : List String)
    (h : ∀ line ∈ lines, strStarts (pyStrip line) "data: " = true →
      loads (strDropChars (pyStrip line) ("data: ".toList.length)) = none) :
    sseExtract loads lines = none := by
  suffices haux : ∀ ls : List String,
      (∀ line ∈ ls, strStarts (pyStrip line) "data: " = true →
        loads (strDropChars (pyStrip line) ("data: ".toList.length)) = none) →
      ∀ acc : Option JVal, ls.foldl (sseStep loads) acc = acc by
    exact haux lines h none
  intro ls
  induction ls with
  | nil =>
    intro _ acc
    rfl
  | cons l rest ih =>
    intro hh acc
    have hstep : sseStep loads acc l = acc := by
      by_cases hl : l = ""
      · simp [sseStep, hl]
      · by_cases hs : strStarts (pyStrip l) "data: " = true
        · exact sseStep_parse_none loads acc l hs (hh l (List.mem_cons_self l rest) hs)
        · simp [sseStep, hl, hs]
    rw [List.foldl_cons, hstep]
    exact ih (fun line hm hs => hh line (List.mem_cons_of_mem l hm) hs) acc

/-- C3: on an HTTP-200 event-stream response the body is processed line by
line, the suffix of each `data: ` line is parsed as JSON and the last
successfully parsed object is the candidate result — with two data lines of
which only the second parses, the second is used and the first ignored — and
when no data line parses the call fails with the protocol error instead of
returning a missing result. -/
theorem make_rpc_call_sse_spec (loads : String → Option JVal)
    (resp : HttpResponse) :
    (∀ l1 l2 v, resp.status = 200 →
      strContains resp.contentType "text/event-stream" = true →
      iterLines resp.body = [l1, l2] →
      strStarts (pyStrip l1) "data: " = true →
      loads (strDropChars (pyStrip l1) ("data: ".toList.length)) = none →
      strStarts (pyStrip l2) "data: " = true →
      loads (strDropChars (pyStrip l2) ("data: ".toList.length)) = some v →
      make_rpc_call loads resp = unwrapResponse v) ∧
    (resp.status = 200 →
      strContains resp.contentType "text/event-stream" = true →
      (∀ line ∈ iterLines resp.body,
        strStarts (pyStrip line) "data: " = true →
        loads (strDropChars (pyStrip line) ("data: ".toList.length)) = none) →
      make_rpc_call loads resp =
        Except.error (RpcError.protocolError "No valid JSON data found in SSE stream")) := by
  constructor
  · intro l1 l2 v hst hct hlines h1s h1n h2s h2v
    have hext : sseExtract loads (iterLines resp.body) = some v := by
      rw [hlines]
      unfold sseExtract
      rw [List.foldl_cons, sseStep_parse_none loads none l1 h1s h1n,
        List.foldl_cons, sseStep_parse_some loads none l2 v h2s h2v]
      rfl
    simp [make_rpc_call, hst, hct, hext]
  · intro hst hct hall
    have hext := sseExtract_all_fail loads (iterLines resp.body) hall
    simp [make_rpc_call, hst, hct, hext]

/-- Witness for C3: a stream whose first data line is not JSON and whose
second is, and a stream with no parseable data line. -/
theorem make_rpc_call_sse_spec_witness :
    make_rpc_call loadsTest
        ⟨200, "text/event-stream",
         "data: this is not json\ndata: \x7b\"result\": 42\x7d"⟩ =
      Except.ok (JVal.int 42) ∧
    make_rpc_call loadsTest ⟨200, "text/event-stream", "data: nope"⟩ =
      Except.error (RpcError.protocolError "No valid JSON data found in SSE stream") := by
  constructor
  · exact ((make_rpc_call_sse_spec loadsTest
      ⟨200, "text/event-stream",
       "data: this is not json\ndata: \x7b\"result\": 42\x7d"⟩).1
      "data: this is not json" "data: \x7b\"result\": 42\x7d"
      (JVal.obj [("result", JVal.int 42)])
      rfl rfl rfl rfl rfl rfl rfl).trans rfl
  · refine (make_rpc_call_sse_spec loadsTest
      ⟨200, "text/event-stream", "data: nope"⟩).2 rfl rfl ?_
    intro line hm hs
    have hm' : line ∈ (["data: nope"] : List String) := hm
    have hl : line = "data: nope" := by
      simpa using hm'
    subst hl
    rfl

/-- Unfolding of one analyst-loop step on a textual item: everything before
the `json.loads` call computes away. -/
theorem analystLoop_cons_text (loads : String → Option JVal) (x : String)
    (rest : List JVal) (acc : Option JVal) :
    analystLoop loads (mkTextItem x :: rest) acc =
      match loads x with
      | some parsed_json =>
        (do
          let hasStmt ← pyContains "statement" parsed_json
          if hasStmt then do
            let stmt ← pySubscript parsed_json "statement"
            Except.ok (some stmt)
          else analystLoop loads rest acc)
      | none => analystLoop loads rest (some (JVal.str x)) := rfl

/-- Unfolding of `analystBody` on a result with a content list. -/
theorem analystBody_items (loads : String → Option JVal) (items : List JVal) :
    analystBody loads (mkItemsResult items) =
      (analystLoop loads items none).bind
        (fun sql_statement =>
          let sval := sql_statement.getD JVal.null
          if pyTruthy sval then
            match sval with
            | JVal.str s => Except.ok (some (pyStrip s))
            | _ => Except.error "AttributeError: object has no attribute strip"
          else Except.ok none) := rfl

/-- A nonempty string is truthy. -/
theorem pyTruthy_str_of_ne (t : String) (h : t ≠ "") :
    pyTruthy (JVal.str t) = true := by
  simp only [pyTruthy, Bool.not_eq_true']
  cases hc : t.toList.isEmpty with
  | false => rfl
  | true =>
    exfalso
    apply h
    cases t with
    | mk data =>
      have hdata : data = [] := by
        simpa [String.toList, List.isEmpty_iff] using hc
      rw [hdata]

/-- When every text in the scan fails to parse, the candidate statement ends
up being the raw text of the last item. -/
theorem analystLoop_all_fail (loads : String → Option JVal) (ts : List String)
    (t : String) :
    (∀ s ∈ ts ++ [t], loads s = none) →
    ∀ acc, analystLoop loads ((ts ++ [t]).map mkTextItem) acc =
      Except.ok (some (JVal.str t)) := by
  induction ts with
  | nil =>
    intro h acc
    simp only [List.nil_append, List.map_cons, List.map_nil]
    rw [analystLoop_cons_text, h t (by simp)]
    rfl
  | cons s ss ih =>
    intro h acc
    simp only [List.cons_append, List.map_cons]
    rw [analystLoop_cons_text, h s (by simp)]
    exact ih (fun x hx => h x (by simp [hx])) (some (JVal.str s))

/-- A scan ending in a nonempty raw statement string flows through
truthiness and strip to a statement. -/
theorem analystBody_of_loop_str (loads : String → Option JVal)
    (items : List JVal) (t : String) (ht : t ≠ "")
    (hloop : analystLoop loads items none = Except.ok (some (JVal.str t))) :
    analystBody loads (mkItemsResult items) = Except.ok (some (pyStrip t)) := by
  rw [analystBody_items, hloop]
  simp [Except.bind, pyTruthy_str_of_ne t ht]

/-- C6 (amended): the analyst interpreter scans all textual items — the
first whose text parses as JSON with a `statement` field supplies the
statement and stops the scan; when an item's text fails to parse its raw
text overwrites the candidate and the scan continues, so with no JSON
statement anywhere the raw text of the LAST unparseable textual item is
used. -/
theorem parse_analyst_statement_selection (loads : String → Option JVal)
    (q : String) :
    (∀ ts t, (∀ s ∈ ts ++ [t], loads s = none) → t ≠ "" →
      jGet (parse_analyst_result loads
        (mkItemsResult ((ts ++ [t]).map mkTextItem)) q) "sql_query" =
        some (JVal.str (pyStrip t))) ∧
    (∀ x kvs s rest, loads x = some (JVal.obj kvs) →
      jLookup kvs "statement" = some (JVal.str s) → s ≠ "" →
      jGet (parse_analyst_result loads
        (mkItemsResult (mkTextItem x :: rest)) q) "sql_query" =
        some (JVal.str (pyStrip s))) := by
  constructor
  · intro ts t h ht
    have hloop := analystLoop_all_fail loads ts t h none
    have hbody := analystBody_of_loop_str loads _ t ht hloop
    unfold parse_analyst_result
    rw [hbody]
    simp [jGet, jLookup]
  · intro x kvs s rest hx hstmt hs
    have hloop : analystLoop loads (mkTextItem x :: rest) none =
        Except.ok (some (JVal.str s)) := by
      rw [analystLoop_cons_text, hx]
      simp only [pyContains, hstmt, pySubscript]
      rfl
    have hbody := analystBody_of_loop_str loads _ s hs hloop
    unfold parse_analyst_result
    rw [hbody]
    simp [jGet, jLookup]

/-- Witness for C6 (amended): two unparseable texts select the last one;
a parseable statement document selects its `statement` value. -/
theorem parse_analyst_statement_selection_witness :
    jGet (parse_analyst_result loadsTest
        (mkItemsResult [mkTextItem "foo", mkTextItem "bar"]) "q") "sql_query" =
      some (JVal.str "bar") ∧
    jGet (parse_analyst_result loadsTest
        (mkItemsResult [mkTextItem stmtJson]) "q") "sql_query" =
      some (JVal.str "SELECT 1") := by
  constructor
  · exact (parse_analyst_statement_selection loadsTest "q").1 ["foo"] "bar"
      (by
        intro s hm
        simp at hm
        rcases hm with h | h <;> subst h <;> rfl)
      (by decide)
  · exact (parse_analyst_statement_selection loadsTest "q").2 stmtJson
      [("statement", JVal.str "SELECT 1")] "SELECT 1" [] rfl rfl (by decide)

/-- C6 counterexample: with two textual items neither of which is valid
JSON, the statement used is the raw text of the LAST item (`"bar"`), not of
the first textual item (`"foo"`) as the claim states. -/
theorem parse_analyst_first_text_cex :
    jGet (parse_analyst_result loadsTest
        (mkItemsResult [mkTextItem "foo", mkTextItem "bar"]) "q") "sql_query" =
      some (JVal.str "bar") ∧
    jGet (parse_analyst_result loadsTest
        (mkItemsResult [mkTextItem "foo", mkTextItem "bar"]) "q") "sql_query" ≠
      some (JVal.str "foo") := by
  have h : jGet (parse_analyst_result loadsTest
      (mkItemsResult [mkTextItem "foo", mkTextItem "bar"]) "q") "sql_query" =
      some (JVal.str "bar") := rfl
  refine ⟨h, ?_⟩
  rw [h]
  simp

@[simp] theorem exceptBindOk {ε α β : Type} (a : α) (f : α → Except ε β) :
    (Except.ok a : Except ε α) >>= f = f a := rfl

@[simp] theorem exceptBindErr {ε α β : Type} (e : ε) (f : α → Except ε β) :
    (Except.error e : Except ε α) >>= f = Except.error e := rfl

@[simp] theorem exceptPureEq {ε α : Type} (a : α) :
    (pure a : Except ε α) = Except.ok a := rfl

/-- The column-name comprehension applied to metadata rows of the expected
shape yields the names. -/
theorem colNames_map (names : List String) :
    colNames (names.map (fun n => JVal.obj [("name", JVal.str n)])) =
      Except.ok (names.map JVal.str) := by
  induction names with
  | nil => rfl
  | cons n ns ih =>
    simp only [List.map_cons, colNames]
    rw [ih]
    rfl

/-- Building one row dict over distinct column names is pairing by
position. -/
theorem buildRowDictAux (names : List String) (cells : List JVal)
    (d : List (String × JVal)) (h : names.Nodup)
    (hd : ∀ n ∈ names, ∀ p ∈ d, p.fst ≠ n) :
    ((names.map JVal.str).zip cells).foldlM
      (fun d nc => do
        let k ← keyOf nc.fst
        pure (pyDictSet d k nc.snd)) d = Except.ok (d ++ names.zip cells) := by
  induction names generalizing cells d with
  | nil => simp [List.foldlM]
  | cons n ns ih =>
    cases cells with
    | nil => simp [List.foldlM]
    | cons c cs =>
      have hany : (d.any (fun p => p.fst = n)) = false := by
        rw [List.any_eq_false]
        intro p hp
        simpa using hd n (List.mem_cons_self n ns) p hp
      have hstep : pyDictSet d n c = d ++ [(n, c)] := by
        simp [pyDictSet, hany]
      have hgoal : (((n :: ns).map JVal.str).zip (c :: cs)).foldlM
          (fun d nc => do
            let k ← keyOf nc.fst
            pure (pyDictSet d k nc.snd)) d =
        ((ns.map JVal.str).zip cs).foldlM
          (fun d nc => do
            let k ← keyOf nc.fst
            pure (pyDictSet d k nc.snd)) (pyDictSet d n c) := rfl
      rw [hgoal, hstep, ih cs (d ++ [(n, c)]) (List.nodup_cons.mp h).2 ?hdisj]
      · simp [List.zip_cons_cons, List.append_assoc]
      case hdisj =>
        intro m hm p hp
        rcases List.mem_append.mp hp with hp | hp
        · exact hd m (List.mem_cons_of_mem n hm) p hp
        · have hpn : p = (n, c) := by simpa using hp
          subst hpn
          intro hc
          have hnm : n = m := hc
          exact (List.nodup_cons.mp h).1 (hnm ▸ hm)

/-- `buildRowDict` over distinct string column names is `zip`. -/
theorem buildRowDict_nodup (names : List String) (cells : List JVal)
    (h : names.Nodup) :
    buildRowDict (names.map JVal.str) cells = Except.ok (names.zip cells) := by
  have := buildRowDictAux names cells [] h (by intro n _ p hp; cases hp)
  simpa [buildRowDict] using this


@[simp] theorem exceptDotBindOk {ε α β : Type} (a : α) (f : α → Except ε β) :
    (Except.ok a : Except ε α).bind f = f a := rfl

@[simp] theorem exceptDotBindErr {ε α β : Type} (e : ε) (f : α → Except ε β) :
    (Except.error e : Except ε α).bind f = Except.error e := rfl

/-- One step of the matched-rows loop on a list row. -/
theorem matchedRowsLoop_cons_arr (names : List JVal) (cells : List JVal)
    (rest acc : List JVal) :
    matchedRowsLoop names (JVal.arr cells :: rest) acc =
      (if cells.length = names.length then do
         let kvs ← buildRowDict names cells
         pure (acc ++ [JVal.obj kvs])
       else pure acc).bind (fun a => matchedRowsLoop names rest a) := rfl

/-- The matched-rows loop over distinct string column names computes exactly
the rows of `convertedRowsSpec`: matching-width rows are converted, every
other row is skipped. -/
theorem matchedRowsLoop_spec (names : List String) (h : names.Nodup)
    (rows : List JVal) :
    ∀ acc, matchedRowsLoop (names.map JVal.str) rows acc =
      Except.ok (acc ++ convertedRowsSpec names rows) := by
  induction rows with
  | nil =>
    intro acc
    simp [matchedRowsLoop, convertedRowsSpec, List.foldlM]
  | cons row rest ih =>
    intro acc
    cases row with
    | arr cells =>
      by_cases hlen : cells.length = names.length
      · have hlen' : cells.length = (names.map JVal.str).length := by
          simpa using hlen
        rw [matchedRowsLoop_cons_arr, if_pos hlen',
          buildRowDict_nodup names cells h]
        simp only [exceptBindOk, exceptPureEq, exceptDotBindOk]
        rw [ih (acc ++ [JVal.obj (names.zip cells)])]
        simp [convertedRowsSpec, hlen, List.append_assoc]
      · have hlen' : ¬cells.length = (names.map JVal.str).length := by
          simpa using hlen
        rw [matchedRowsLoop_cons_arr, if_neg hlen']
        simp only [exceptPureEq, exceptDotBindOk]
        rw [ih acc]
        simp [convertedRowsSpec, hlen]
    | null =>
      have hr : matchedRowsLoop (names.map JVal.str) (JVal.null :: rest) acc =
          matchedRowsLoop (names.map JVal.str) rest acc := rfl
      rw [hr, ih acc]
      simp [convertedRowsSpec]
    | bool b =>
      have hr : matchedRowsLoop (names.map JVal.str) (JVal.bool b :: rest) acc =
          matchedRowsLoop (names.map JVal.str) rest acc := rfl
      rw [hr, ih acc]
      simp [convertedRowsSpec]
    | int n =>
      have hr : matchedRowsLoop (names.map JVal.str) (JVal.int n :: rest) acc =
          matchedRowsLoop (names.map JVal.str) rest acc := rfl
      rw [hr, ih acc]
      simp [convertedRowsSpec]
    | str s =>
      have hr : matchedRowsLoop (names.map JVal.str) (JVal.str s :: rest) acc =
          matchedRowsLoop (names.map JVal.str) rest acc := rfl
      rw [hr, ih acc]
      simp [convertedRowsSpec]
    | obj kvs =>
      have hr : matchedRowsLoop (names.map JVal.str) (JVal.obj kvs :: rest) acc =
          matchedRowsLoop (names.map JVal.str) rest acc := rfl
      rw [hr, ih acc]
      simp [convertedRowsSpec]

/-- One step of the fallback row loop. -/
theorem genericRowsLoop_cons (row : JVal) (rest acc : List JVal) :
    genericRowsLoop (row :: rest) acc =
      genericRowsLoop rest
        (match row with
         | JVal.arr cells =>
           acc ++
             [JVal.obj ((cells.enum).map
               (fun p => ("column_" ++ toString p.fst, p.snd)))]
         | _ => acc) := rfl

/-- The fallback row loop computes exactly `syntheticRowsSpec`. -/
theorem genericRowsLoop_spec (rows : List JVal) :
    ∀ acc, genericRowsLoop rows acc = acc ++ syntheticRowsSpec rows := by
  induction rows with
  | nil =>
    intro acc
    simp [genericRowsLoop, syntheticRowsSpec]
  | cons row rest ih =>
    intro acc
    rw [genericRowsLoop_cons]
    cases row with
    | arr cells =>
      rw [ih]
      simp [syntheticRowsSpec, List.append_assoc]
    | null =>
      rw [ih]
      simp [syntheticRowsSpec]
    | bool b =>
      rw [ih]
      simp [syntheticRowsSpec]
    | int n =>
      rw [ih]
      simp [syntheticRowsSpec]
    | str s =>
      rw [ih]
      simp [syntheticRowsSpec]
    | obj kvs =>
      rw [ih]
      simp [syntheticRowsSpec]

/-- `sqlHandleResponse` on a response with column metadata: the metadata is
rebuilt from the rowType names and the rows are converted by the
matched-rows loop (nonempty, duplicate-free column names). -/
theorem sqlHandleResponse_withMeta (st : List JVal × Option JVal)
    (names : List String) (nr : JVal) (rows : List JVal)
    (hne : names ≠ []) (hnd : names.Nodup) :
    sqlHandleResponse st (mkSnowflakeWithMeta names nr rows) =
      Except.ok (st.fst ++ convertedRowsSpec names rows,
        some (JVal.obj [("columns", JVal.arr (names.map JVal.str)),
          ("num_rows", nr)])) := by
  have h1 : sqlHandleResponse st (mkSnowflakeWithMeta names nr rows) =
      ((colNames (names.map (fun n => JVal.obj [("name", JVal.str n)]))).bind
        (fun cols =>
          Except.ok (some (JVal.obj [("columns", JVal.arr cols),
            ("num_rows", nr)])))).bind
        (fun result_metadata =>
          ((match result_metadata with
            | none => Except.ok none
            | some md =>
              if pyTruthy md then
                (pySubscript md "columns").bind
                  (fun colsv =>
                    if pyTruthy colsv then
                      match colsv with
                      | JVal.arr ns => Except.ok (some ns)
                      | _ => Except.error "TypeError: columns is not a list"
                    else Except.ok none)
              else Except.ok none) :
            Except String (Option (List JVal))).bind
            (fun useCols =>
              match useCols with
              | some ns =>
                (matchedRowsLoop ns rows st.fst).bind
                  (fun rs => Except.ok (rs, result_metadata))
              | none =>
                Except.ok (genericRowsLoop rows st.fst, result_metadata))) := rfl
  have htr : pyTruthy (JVal.arr (names.map JVal.str)) = true := by
    cases names with
    | nil => exact absurd rfl hne
    | cons a l => rfl
  rw [h1, colNames_map]
  simp only [exceptDotBindOk]
  show ((if pyTruthy (JVal.arr (names.map JVal.str)) then
      Except.ok (some (names.map JVal.str))
    else Except.ok none : Except String (Option (List JVal))).bind
      (fun useCols =>
        match useCols with
        | some ns =>
          (matchedRowsLoop ns rows st.fst).bind
            (fun rs => Except.ok (rs,
              some (JVal.obj [("columns", JVal.arr (names.map JVal.str)),
                ("num_rows", nr)])))
        | none =>
          Except.ok (genericRowsLoop rows st.fst,
            some (JVal.obj [("columns", JVal.arr (names.map JVal.str)),
              ("num_rows", nr)])))) = _
  rw [if_pos htr]
  simp only [exceptDotBindOk]
  rw [matchedRowsLoop_spec names hnd rows st.fst]
  simp only [exceptDotBindOk]

/-- `sqlHandleResponse` on a response whose result set has rows but no
metadata: the fallback loop with synthetic column names runs. -/
theorem sqlHandleResponse_noMeta (rows : List JVal) :
    sqlHandleResponse ([], none) (mkSnowflakeNoMeta rows) =
      Except.ok (genericRowsLoop rows [], none) := rfl

/-- One content item of `parse_sql_result`: everything before the
`json.loads` call computes away. -/
theorem sqlProcessItem_text (loads : String → Option JVal)
    (st : List JVal × Option JVal) (x : String) :
    sqlProcessItem loads st (mkTextItem x) =
      match loads x with
      | some r => sqlHandleResponse st r
      | none =>
        Except.ok (st.fst ++ [JVal.obj [("result", JVal.str x)]], st.snd) := rfl

/-- `sqlParseBody` on a single-text-item result reduces to the handler of
the decoded text. -/
theorem sqlParseBody_single (loads : String → Option JVal) (txt : String)
    (r : JVal) (hload : loads txt = some r) :
    sqlParseBody loads (mkTextResult txt) = sqlHandleResponse ([], none) r := by
  have h1 : sqlParseBody loads (mkTextResult txt) =
      (sqlProcessItem loads ([], none) (mkTextItem txt)).bind
        (fun st => Except.ok st) := rfl
  rw [h1, sqlProcessItem_text, hload]
  show (sqlHandleResponse ([], none) r).bind (fun st => Except.ok st) = _
  rcases sqlHandleResponse ([], none) r with e | st <;> rfl

/-- C1 (amended): with column metadata present (nonempty, duplicate-free
names), each list row whose width equals the column count is converted to a
mapping from column name to cell value by position; each row whose width
differs is skipped — omitted from the interpreted rows — rather than given
synthetic column names. -/
theorem parse_sql_rows_with_columns (loads : String → Option JVal)
    (q txt : String) (names : List String) (nr : JVal) (rows : List JVal)
    (hne : names ≠ []) (hnd : names.Nodup)
    (hload : loads txt = some (mkSnowflakeWithMeta names nr rows)) :
    jGet (parse_sql_result loads (mkTextResult txt) q) "execution_results" =
      some (JVal.arr (convertedRowsSpec names rows)) ∧
    jGet (parse_sql_result loads (mkTextResult txt) q) "error" = none := by
  have hbody : sqlParseBody loads (mkTextResult txt) =
      Except.ok (convertedRowsSpec names rows,
        some (JVal.obj [("columns", JVal.arr (names.map JVal.str)),
          ("num_rows", nr)])) := by
    rw [sqlParseBody_single loads txt _ hload,
      sqlHandleResponse_withMeta ([], none) names nr rows hne hnd]
    rfl
  unfold parse_sql_result
  rw [hbody]
  constructor
  · simp [jGet, jLookup]
  · simp [jGet, jLookup]

/-- Witness for C1 (amended): columns `name`, `val` with rows
`[["a", 1], ["b", 2]]` give exactly the claim's example output. -/
theorem parse_sql_rows_with_columns_witness :
    jGet (parse_sql_result loadsTest (mkTextResult sqlOkJson) "SELECT 1")
        "execution_results" =
      some (JVal.arr
        [JVal.obj [("name", JVal.str "a"), ("val", JVal.int 1)],
         JVal.obj [("name", JVal.str "b"), ("val", JVal.int 2)]]) ∧
    jGet (parse_sql_result loadsTest (mkTextResult sqlOkJson) "SELECT 1")
        "error" = none :=
  parse_sql_rows_with_columns loadsTest "SELECT 1" sqlOkJson ["name", "val"]
    (JVal.int 2)
    [JVal.arr [JVal.str "a", JVal.int 1], JVal.arr [JVal.str "b", JVal.int 2]]
    (by decide) (by decide) rfl

/-- C1 counterexample: columns `name`, `val` with rows `[["a", 1], ["b"]]` —
the mismatched-width row `["b"]` is dropped entirely (one row, row_count 1),
not converted to synthetic `column_<index>` names as the claim states. -/
theorem parse_sql_mismatched_row_cex :
    jGet (parse_sql_result loadsTest (mkTextResult sqlShortRowJson) "SELECT 1")
        "execution_results" =
      some (JVal.arr [JVal.obj [("name", JVal.str "a"), ("val", JVal.int 1)]]) ∧
    jGet (parse_sql_result loadsTest (mkTextResult sqlShortRowJson) "SELECT 1")
        "row_count" = some (JVal.int 1) := by
  constructor
  · rfl
  · rfl

/-- C2 (amended): a result set with row data but no `resultSetMetaData`
produces one interpreted row per list row, with synthetic column names
`column_<index>`, and no error — not zero rows. -/
theorem parse_sql_rows_without_metadata (loads : String → Option JVal)
    (q txt : String) (rows : List JVal)
    (hload : loads txt = some (mkSnowflakeNoMeta rows)) :
    jGet (parse_sql_result loads (mkTextResult txt) q) "execution_results" =
      some (JVal.arr (syntheticRowsSpec rows)) ∧
    jGet (parse_sql_result loads (mkTextResult txt) q) "error" = none ∧
    jGet (parse_sql_result loads (mkTextResult txt) q) "executed" =
      some (JVal.bool true) := by
  have hbody : sqlParseBody loads (mkTextResult txt) =
      Except.ok (syntheticRowsSpec rows, none) := by
    rw [sqlParseBody_single loads txt _ hload, sqlHandleResponse_noMeta,
      genericRowsLoop_spec rows []]
    simp
  unfold parse_sql_result
  rw [hbody]
  refine ⟨?_, ?_, ?_⟩ <;> simp [jGet, jLookup]

/-- C2 counterexample: row data `[["a", 1]]` without metadata yields one
synthetic-column row and row_count 1, while the claim predicts zero
interpreted rows. -/
theorem parse_sql_missing_metadata_cex :
    jGet (parse_sql_result loadsTest (mkTextResult sqlNoMetaJson) "SELECT 1")
        "execution_results" =
      some (JVal.arr
        [JVal.obj [("column_0", JVal.str "a"), ("column_1", JVal.int 1)]]) ∧
    jGet (parse_sql_result loadsTest (mkTextResult sqlNoMetaJson) "SELECT 1")
        "row_count" = some (JVal.int 1) := by
  constructor
  · rfl
  · rfl

/-- Witness for C2 (amended) at the concrete no-metadata payload. -/
theorem parse_sql_rows_without_metadata_witness :
    jGet (parse_sql_result loadsTest (mkTextResult sqlNoMetaJson) "SELECT 1")
        "error" = none ∧
    jGet (parse_sql_result loadsTest (mkTextResult sqlNoMetaJson) "SELECT 1")
        "executed" = some (JVal.bool true) :=
  have h := parse_sql_rows_without_metadata loadsTest "SELECT 1" sqlNoMetaJson
    [JVal.arr [JVal.str "a", JVal.int 1]] rfl
  ⟨h.2.1, h.2.2⟩

/-- C7 (amended): the three interpreters are total — every input yields a
returned structure (a dict), never an exception past the boundary; a failure
reaching an interpreter's outer handler is converted into a structure
carrying an `error` field.  (JSON-decode failures of embedded text are
handled further in, and downgraded into ordinary output without an `error`
field — see the counterexample.) -/
theorem interpreters_return_structures (loads : String → Option JVal)
    (result : JVal) (q m : String) :
    (∃ kvs, parse_analyst_result loads result q = JVal.obj kvs) ∧
    (∃ kvs, parse_sql_result loads result q = JVal.obj kvs) ∧
    (∃ kvs, parse_agent_result result m = JVal.obj kvs) ∧
    (∀ e, analystBody loads result = Except.error e →
      jGet (parse_analyst_result loads result q) "error" = some (JVal.str e)) ∧
    (∀ e, sqlParseBody loads result = Except.error e →
      jGet (parse_sql_result loads result q) "error" = some (JVal.str e)) ∧
    (∀ e, agentBody result = Except.error e →
      jGet (parse_agent_result result m) "error" = some (JVal.str e)) := by
  refine ⟨?_, ?_, ?_, ?_, ?_, ?_⟩
  · unfold parse_analyst_result
    rcases analystBody loads result with e | so
    · exact ⟨_, rfl⟩
    · rcases so with _ | s
      · exact ⟨_, rfl⟩
      · exact ⟨_, rfl⟩
  · unfold parse_sql_result
    rcases sqlParseBody loads result with e | st
    · exact ⟨_, rfl⟩
    · exact ⟨_, rfl⟩
  · unfold parse_agent_result
    rcases agentBody result with e | r
    · exact ⟨_, rfl⟩
    · exact ⟨_, rfl⟩
  · intro e he
    unfold parse_analyst_result
    rw [he]
    simp [jGet, jLookup]
  · intro e he
    unfold parse_sql_result
    rw [he]
    simp [jGet, jLookup]
  · intro e he
    unfold parse_agent_result
    rw [he]
    simp [jGet, jLookup]

/-- Witness for C7 (amended): a content list whose item is a number makes
Python's `item.get('type')` raise, which each outer handler converts into a
structure with an `error` field. -/
theorem interpreters_return_structures_witness :
    jGet (parse_analyst_result loadsTest
        (JVal.obj [("content", JVal.arr [JVal.int 5])]) "q") "error" =
      some (JVal.str "AttributeError: object has no attribute get") ∧
    jGet (parse_sql_result loadsTest
        (JVal.obj [("content", JVal.arr [JVal.int 5])]) "q") "error" =
      some (JVal.str "AttributeError: object has no attribute get") ∧
    jGet (parse_agent_result
        (JVal.obj [("content", JVal.arr [JVal.int 5])]) "m") "error" =
      some (JVal.str "AttributeError: object has no attribute get") :=
  have h := interpreters_return_structures loadsTest
    (JVal.obj [("content", JVal.arr [JVal.int 5])]) "q" "m"
  ⟨h.2.2.2.1 "AttributeError: object has no attribute get" rfl,
   h.2.2.2.2.1 "AttributeError: object has no attribute get" rfl,
   h.2.2.2.2.2 "AttributeError: object has no attribute get" rfl⟩

/-- C7 counterexample: a content item whose text fails JSON parsing (an
internal parsing failure) is NOT converted into a structure carrying an
`error` field — `parse_sql_result` downgrades it inline to a plain-text
result row and returns the success structure with no `error` key. -/
theorem interpreter_no_error_field_cex :
    jGet (parse_sql_result loadsTest (mkTextResult "this is not json")
        "SELECT 2") "error" = none ∧
    jGet (parse_sql_result loadsTest (mkTextResult "this is not json")
        "SELECT 2") "executed" = some (JVal.bool true) ∧
    jGet (parse_sql_result loadsTest (mkTextResult "this is not json")
        "SELECT 2") "execution_results" =
      some (JVal.arr [JVal.obj [("result", JVal.str "this is not json")]]) := by
  refine ⟨?_, ?_, ?_⟩
  · rfl
  · rfl
  · rfl
